import Mathlib

/-!
Verification of the vivacitypy repository (client.py, utils.py).

Shallow embedding conventions:
- `datetime` values are modelled as natural numbers counting seconds since an
  epoch; `timedelta(days = d)` is `d * 86400` seconds.
- JSON string fields stay `String`; nullable values are `Option`.
- Python `dict` payloads iterated with `.items()` are modelled as association
  lists in iteration order.
- Characters are ASCII, matching the Python regexes `[a-z]`, `[A-Z]`, `\d`,
  `[Ss]`, `[nsew]` which only involve ASCII classes on the inputs at issue.
-/

namespace Vivacitypy

/-! ## client.py, `batch_date_range` (lines 22-33)

The Python loop `while current < to_date` advances by
`min(current + timedelta(days=max_days), to_date)`.  It does not terminate
for `max_days <= 0`, so the embedding carries the positivity hypothesis that
every claim about it assumes. -/

/-- The loop of `batch_date_range`: `span` is the advance in seconds
(`max_days * 86400`). -/
def batchGo (to_date span : Nat) (hspan : 0 < span) (current : Nat) :
    List (Nat × Nat) :=
  if _h : current < to_date then
    (current, min (current + span) to_date) ::
      batchGo to_date span hspan (min (current + span) to_date)
  else []
termination_by to_date - current
decreasing_by
  omega

/-- `batch_date_range(from_date, to_date, max_days)` from client.py lines
22-33, for positive `max_days` (the loop diverges otherwise). -/
def batch_date_range (from_date to_date : Nat) (max_days : Nat)
    (hmd : 0 < max_days) : List (Nat × Nat) :=
  batchGo to_date (max_days * 86400) (Nat.mul_pos hmd (by norm_num)) from_date

/-! ## client.py, identifier chunking (line 187)

`[countline_ids[i:i + 50] for i in range(0, len(countline_ids), 50)]`:
`range(0, N, 50)` enumerates `i = 50 * k` for `k < ceil(N / 50)`, and the
slice `ids[i:i+50]` is `(ids.drop i).take 50`. -/

def id_batches (countline_ids : List String) : List (List String) :=
  (List.range ((countline_ids.length + 49) / 50)).map
    (fun k => (countline_ids.drop (50 * k)).take 50)

/-! ## utils.py, `format_road_name` (lines 3-59) -/

/-- `re.sub(r'([a-z])([A-Z])', r'\1 \2', s)`: inserts a space between a
lowercase letter and an immediately following uppercase letter.  The regex
scan resumes after each match; since an uppercase letter can never start a
match of this pattern, the simple adjacent-pair walk is equivalent. -/
def subLowerUpper : List Char → List Char
  | [] => []
  | [c] => [c]
  | c1 :: c2 :: rest =>
    if c1.isLower && c2.isUpper then c1 :: ' ' :: subLowerUpper (c2 :: rest)
    else c1 :: subLowerUpper (c2 :: rest)

/-- `re.sub(r'(\d)([A-Z])', r'\1 \2', s)`: space between a digit and an
immediately following uppercase letter (same resumption argument). -/
def subDigitUpper : List Char → List Char
  | [] => []
  | [c] => [c]
  | c1 :: c2 :: rest =>
    if c1.isDigit && c2.isUpper then c1 :: ' ' :: subDigitUpper (c2 :: rest)
    else c1 :: subDigitUpper (c2 :: rest)

/-- Helper for `str.split()`: accumulates the current word (reversed). -/
def splitWordsAux (cur : List Char) : List Char → List (List Char)
  | [] => [cur.reverse]
  | c :: rest =>
    if c.isWhitespace then cur.reverse :: splitWordsAux [] rest
    else splitWordsAux (c :: cur) rest

/-- Python `str.split()` with no argument: split on whitespace runs,
discarding empty words. -/
def splitWords (l : List Char) : List (List Char) :=
  (splitWordsAux [] l).filter (fun w => !w.isEmpty)

/-- The `road_type_abbrevs` table of utils.py lines 33-49. -/
def road_type_abbrevs : List (List Char × List Char) :=
  [("st".toList, "Street".toList), ("ln".toList, "Lane".toList),
   ("rd".toList, "Road".toList), ("ave".toList, "Avenue".toList),
   ("dr".toList, "Drive".toList), ("ct".toList, "Court".toList),
   ("pl".toList, "Place".toList), ("cres".toList, "Crescent".toList),
   ("cr".toList, "Crescent".toList), ("gr".toList, "Grove".toList),
   ("pk".toList, "Park".toList), ("sq".toList, "Square".toList),
   ("terr".toList, "Terrace".toList), ("jnt".toList, "Junction".toList),
   ("way".toList, "Way".toList)]

/-- utils.py lines 51-54: `if words:` take `words[-1].lower()`; when it is a
key of the abbreviation table, replace the last word by the expansion. -/
def expandLastAbbrev (words : List (List Char)) : List (List Char) :=
  match words.getLast? with
  | none => words
  | some w =>
    match road_type_abbrevs.lookup (w.map Char.toLower) with
    | none => words
    | some rep => words.dropLast ++ [rep]

/-- Python `str.capitalize()`: first character uppercased, the rest
lowercased. -/
def capitalizeWord : List Char → List Char
  | [] => []
  | c :: rest => c.toUpper :: rest.map Char.toLower

/-- `format_road_name` from utils.py lines 3-59. -/
def format_road_name (camel_case : String) : String :=
  if camel_case = "" then camel_case
  else
    let r1 := subLowerUpper camel_case.toList
    let r2 := subDigitUpper r1
    let words := splitWords r2
    let words2 := expandLastAbbrev words
    String.intercalate " " (words2.map (fun w => String.mk (capitalizeWord w)))

/-! ## utils.py, `extract_camera_id` (lines 62-126) -/

/-- `needle in hay` substring test on character lists. -/
def hasSubstring (hay needle : List Char) : Bool :=
  needle.isPrefixOf hay ||
    match hay with
    | [] => false
    | _ :: t => hasSubstring t needle

/-- utils.py lines 85-90: counter type from the full lowercase name;
`"_crossing"` first, then any of the segment indicators, else unknown. -/
def counter_type_of (chars : List Char) : String :=
  let name_lower := chars.map Char.toLower
  if hasSubstring name_lower "_crossing".toList then "crossing"
  else if ["_road", "_path", "_cyclepath", "_cyclelane", "_buslan"].any
      (fun x => hasSubstring name_lower x.toList) then "segment"
  else "unknown"

/-- `s.split('_', 1)`: text before the first underscore, and, when an
underscore is present, the remainder after it. -/
def splitFirstUnderscore : List Char → List Char × Option (List Char)
  | [] => ([], none)
  | c :: rest =>
    if c = '_' then ([], some rest)
    else
      let p := splitFirstUnderscore rest
      (c :: p.1, p.2)

/-- `re.match(r'^[Ss]\d+$', s)` as a Boolean: `S` or `s` followed by one or
more digits, nothing else.  (The Python `$` would also tolerate one trailing
newline; sensor names carry none.) -/
def matchesCordon : List Char → Bool
  | [] => false
  | c :: rest => (c == 'S' || c == 's') && !rest.isEmpty && rest.all Char.isDigit

/-- `s.split('_')`: always at least one (possibly empty) part. -/
def splitUnderscore : List Char → List (List Char)
  | [] => [[]]
  | c :: rest =>
    if c = '_' then [] :: splitUnderscore rest
    else
      match splitUnderscore rest with
      | [] => [[c]]
      | w :: ws => (c :: w) :: ws

/-- `re.sub(r'[nsew]$', '', s)`: drop one trailing compass letter. -/
def stripCompass (l : List Char) : List Char :=
  match l.getLast? with
  | none => l
  | some c => if c = 'n' || c = 's' || c = 'e' || c = 'w' then l.dropLast else l

/-- utils.py lines 121-124: `f"{cordon_name}_{location_id}"` when a cordon
prefix was found, else the location id alone. -/
def mk_camera_id (cordon : Option (List Char)) (location_id : List Char) :
    String :=
  match cordon with
  | some c => String.mk (c ++ '_' :: location_id)
  | none => String.mk location_id

/-- `extract_camera_id` from utils.py lines 62-126.  `None` results are
`none`; the Python falsiness test `if not sensor_name` is the empty-string
test on a `str` argument.  In the source, `location_id` is
`raw_road_name.lower() if raw_road_name else ''`; for a falsy (empty) raw
token both branches give `''`, so the embedding lowercases the raw token
directly. -/
def extract_camera_id (sensor_name : String) :
    Option String × Option String × Option String × Option String :=
  if sensor_name = "" then (none, none, none, none)
  else
    let chars := sensor_name.toList
    let counter_type := counter_type_of chars
    let pr := splitFirstUnderscore chars
    let cordon_body : Option (List Char) × List Char :=
      match pr.2 with
      | some rest =>
        if matchesCordon pr.1 then (some (pr.1.map Char.toUpper), rest)
        else (none, chars)
      | none => (none, chars)
    let cordon_name := cordon_body.1
    let name_body := cordon_body.2
    match splitUnderscore name_body with
    | [] =>
      -- utils.py lines 108-110: `road_name = None` when `body_parts` is
      -- empty (unreachable: `split('_')` never returns an empty list).
      (some (mk_camera_id cordon_name []),
       cordon_name.map (fun l => String.mk l), none, some counter_type)
    | raw :: _ =>
      (some (mk_camera_id cordon_name (stripCompass (raw.map Char.toLower))),
       cordon_name.map (fun l => String.mk l),
       some (format_road_name (String.mk raw)), some counter_type)

/-! ## client.py, `get_counts` record parsing (lines 200-246)

The class-to-mode table `VIVACITY_CLASS_MAP` is imported from constants.py
(not part of the relevant sources); `dict.get(k, k)` is modelled by an
arbitrary partial map `classMap : String → Option String` with default
`(classMap k).getD k`, so every statement below holds for every table. -/

/-- One record emitted by the loop of client.py lines 227-243. -/
structure CountRecord where
  countline_id : String
  timestamp : String
  fromT : String
  toT : String
  direction : String
  cls : String
  mode : String
  count : Nat
deriving DecidableEq, Repr

/-- client.py lines 227-243: for each `(viv_class, count)` item of one
direction's payload, skip `"total"` and null counts, otherwise emit one
record with `mode = VIVACITY_CLASS_MAP.get(viv_class, viv_class)`. -/
def processDirection (classMap : String → Option String)
    (countline_id from_time to_time direction : String)
    (dir_data : List (String × Option Nat)) : List CountRecord :=
  dir_data.filterMap (fun p =>
    if p.1 = "total" then none
    else
      match p.2 with
      | none => none
      | some c =>
        some { countline_id := countline_id, timestamp := from_time,
               fromT := from_time, toT := to_time, direction := direction,
               cls := p.1, mode := (classMap p.1).getD p.1, count := c })

/-- One time-bucket entry of a counts response (client.py lines 216-224):
`from`, `to`, and the two direction payloads (absent direction = empty
payload; `if not dir_data: continue` is a no-op in that reading since an
empty payload emits nothing). -/
structure RawRecord where
  fromT : String
  toT : String
  clockwise : List (String × Option Nat)
  anti_clockwise : List (String × Option Nat)
deriving Repr

/-- client.py lines 216-243: both directions of one time-bucket record, in
iteration order `["clockwise", "anti_clockwise"]`. -/
def parseRecord (classMap : String → Option String) (countline_id : String)
    (r : RawRecord) : List CountRecord :=
  processDirection classMap countline_id r.fromT r.toT "clockwise" r.clockwise
    ++ processDirection classMap countline_id r.fromT r.toT "anti_clockwise"
        r.anti_clockwise

/-- client.py lines 212-243: a whole `{countline_id: [records]}` response
body (the `if not records: continue` guard is again a no-op). -/
def parseResponse (classMap : String → Option String)
    (data : List (String × List RawRecord)) : List CountRecord :=
  (data.map (fun p => (p.2.map (parseRecord classMap p.1)).flatten)).flatten

/-! ## client.py, bidirectional aggregation (lines 248-260)

`df.groupby([...]).agg({"count": "sum"})` produces one output row per
distinct key with the summed count; the embedding enumerates the distinct
keys (first-occurrence order; the claims are insensitive to row order) and
sums the matching counts. -/

/-- An aggregated record: the output of the bidirectional branch carries no
direction field (client.py line 255 groups by everything except direction
and count). -/
structure AggRecord where
  countline_id : String
  timestamp : String
  fromT : String
  toT : String
  cls : String
  mode : String
  count : Nat
deriving DecidableEq, Repr

/-- The groupby key of client.py line 255. -/
def aggKey (r : CountRecord) :
    String × String × String × String × String × String :=
  (r.countline_id, r.timestamp, r.fromT, r.toT, r.cls, r.mode)

/-- Distinct elements in first-occurrence order. -/
def dedupFirst {α : Type} [DecidableEq α] : List α → List α
  | [] => []
  | k :: ks => k :: (dedupFirst ks).filter (fun x => decide (x ≠ k))

/-- client.py lines 248-258: empty input short-circuits to `[]`
(`if df.empty`), otherwise group by `aggKey` and sum `count`. -/
def aggregate_bidirectional (rs : List CountRecord) : List AggRecord :=
  match rs with
  | [] => []
  | _ =>
    (dedupFirst (rs.map aggKey)).map (fun k =>
      { countline_id := k.1, timestamp := k.2.1, fromT := k.2.2.1,
        toT := k.2.2.2.1, cls := k.2.2.2.2.1, mode := k.2.2.2.2.2,
        count := ((rs.filter (fun r => aggKey r = k)).map
          (fun r => r.count)).sum })

/-! ## client.py, per-sub-batch failure policy (lines 200-246 and 297-324)

Each sub-batch request yields either an HTTP response (status plus parsed
body) or an exception (`except Exception` around the whole body: transport
errors and malformed payloads alike).  `get_counts` and `get_speed` share
the shape, differing only in the per-body parser, so the collection loop is
modelled once, generic in the parser. -/

/-- Outcome of one sub-batch request. -/
inductive SubResponse (α : Type) where
  | response (status : Nat) (body : α)
  | exn
deriving Repr

/-- The accumulation loop: `all_records` starts empty; a status other than
200 hits `continue` (client.py lines 206-207, 303-304), an exception is
caught and skipped (lines 244-246, 322-324), a 200 response contributes
`parse body`, appended in order. -/
def runBatches {α β : Type} (parse : α → List β)
    (results : List (SubResponse α)) : List β :=
  results.foldl (fun acc r =>
    match r with
    | .response status body => if status = 200 then acc ++ parse body else acc
    | .exn => acc) []

/-- The body of a successful (status 200) sub-batch response. -/
def successBody {α : Type} : SubResponse α → Option α
  | .response status body => if status = 200 then some body else none
  | .exn => none

/-! ## client.py, speed join (lines 373-423)

`fetch_region_traffic` (bidirectional, lines 359-368) builds rows with
`v85 = None` and `source = "vivacity"`; `fetch_region_traffic_with_speed`
then averages `p85_speed` per (sensor, calendar day) and assigns the joined
value to rows whose mode is `"car"` only.  Timestamps are epoch seconds, so
`dt.date` is division by 86400; speed percentiles are rationals; a null
`p85_speed` is skipped by the pandas mean (and an all-null or empty group
joins as null). -/

/-- One record of `get_speed` output used by the join (client.py lines
313-321): sensor, bucket start, nullable 85th percentile. -/
structure SpeedEntry where
  countline_id : String
  fromT : Nat
  mean_speed : Option ℚ
  p50_speed : Option ℚ
  p85_speed : Option ℚ
  sample_size : Option Nat
deriving DecidableEq, Repr

/-- One output row of `fetch_region_traffic` in bidirectional mode
(client.py line 368). -/
structure TrafficRow where
  timestamp : Nat
  sensor_id : String
  mode : String
  count : Nat
  v85 : Option ℚ
  region : String
  source : String
deriving DecidableEq, Repr

/-- client.py lines 359-368: rows from the aggregated counts, with
`v85 = None`, `region` tag and `source = "vivacity"`.  The input quadruples
are (timestamp, sensor_id, mode, count) as produced by `get_counts` after
the rename of line 361. -/
def fetch_region_traffic_rows (recs : List (Nat × String × String × Nat))
    (region : String) : List TrafficRow :=
  recs.map (fun q =>
    { timestamp := q.1, sensor_id := q.2.1, mode := q.2.2.1,
      count := q.2.2.2, v85 := none, region := region,
      source := "vivacity" })

/-- client.py lines 400-407 and 413-417: the daily mean of `p85_speed` for
one (sensor, day) key, and its left-join value — `none` when the key has no
speed entries with a non-null percentile. -/
def dailyP85 (speeds : List SpeedEntry) (sensor_id : String) (day : Nat) :
    Option ℚ :=
  let g := (speeds.filter (fun e =>
      e.countline_id = sensor_id && e.fromT / 86400 = day)).filterMap
    (fun e => e.p85_speed)
  match g with
  | [] => none
  | _ => some (g.sum / g.length)

/-- `fetch_region_traffic_with_speed` (client.py lines 373-423): empty
count frame returned as-is; empty speed data skips the join (line 399);
otherwise `v85` is assigned the joined daily mean on `"car"` rows only
(line 420), every other row keeping the null from line 367. -/
def fetch_region_traffic_with_speed
    (recs : List (Nat × String × String × Nat)) (region : String)
    (speeds : List SpeedEntry) : List TrafficRow :=
  match fetch_region_traffic_rows recs region with
  | [] => []
  | df =>
    match speeds with
    | [] => df
    | _ =>
      df.map (fun r =>
        if r.mode = "car" then
          { r with v85 := dailyP85 speeds r.sensor_id (r.timestamp / 86400) }
        else r)

end Vivacitypy

namespace Vivacitypy

/-! ## Supporting lemmas -/

lemma batchGo_pos {to_date span : Nat} (hspan : 0 < span) {current : Nat}
    (hc : current < to_date) :
    batchGo to_date span hspan current =
      (current, min (current + span) to_date) ::
        batchGo to_date span hspan (min (current + span) to_date) := by
  rw [batchGo]
  simp [hc]

lemma batchGo_neg {to_date span : Nat} (hspan : 0 < span) {current : Nat}
    (hc : ¬ current < to_date) :
    batchGo to_date span hspan current = [] := by
  rw [batchGo]
  simp [hc]

lemma batchGo_spec (to_date span : Nat) (hspan : 0 < span) :
    ∀ n current, to_date ≤ current + n → current < to_date →
      (batchGo to_date span hspan current).head?.map Prod.fst = some current
      ∧ List.Chain' (fun a b => a.2 = b.1) (batchGo to_date span hspan current)
      ∧ (∀ b ∈ batchGo to_date span hspan current, b.2 - b.1 ≤ span)
      ∧ (batchGo to_date span hspan current).getLast?.map Prod.snd
          = some to_date := by
  intro n
  induction n with
  | zero => intro c hn hc; omega
  | succ n ih =>
    intro c hn hc
    rw [batchGo_pos hspan hc]
    by_cases h2 : min (c + span) to_date < to_date
    · obtain ⟨ihh, ihc, ihb, ihl⟩ := ih (min (c + span) to_date) (by omega) h2
      rcases hrest : batchGo to_date span hspan (min (c + span) to_date) with
        _ | ⟨r, rs⟩
      · rw [hrest] at ihl; simp at ihl
      · rw [hrest] at ihh ihc ihb ihl
        refine ⟨by simp, ?_, ?_, ?_⟩
        · rw [List.chain'_cons]
          constructor
          · simp at ihh; simp [ihh]
          · exact ihc
        · intro b hb
          rw [List.mem_cons] at hb
          rcases hb with hb | hb
          · simp [hb]; omega
          · exact ihb b hb
        · simpa using ihl
    · have hmin : min (c + span) to_date = to_date := by omega
      rw [hmin, batchGo_neg hspan (by omega)]
      refine ⟨by simp, by simp, ?_, by simp⟩
      intro b hb
      simp at hb
      subst hb
      simp
      omega

lemma chunks_flatten (l : List String) :
    ∀ n, ((List.range n).map
        (fun k => (l.drop (50 * k)).take 50)).flatten = l.take (50 * n) := by
  intro n
  induction n with
  | zero => simp
  | succ n ih =>
    rw [List.range_succ, List.map_append, List.flatten_append, ih]
    simp
    rw [Nat.mul_succ, List.take_add]

lemma runBatches_foldl {α β : Type} (parse : α → List β) :
    ∀ (results : List (SubResponse α)) (acc : List β),
      results.foldl (fun acc r =>
        match r with
        | .response status body =>
          if status = 200 then acc ++ parse body else acc
        | .exn => acc) acc
      = acc ++ ((results.filterMap successBody).map parse).flatten := by
  intro results
  induction results with
  | nil => simp
  | cons r rs ih =>
    intro acc
    cases r with
    | exn => simp [successBody, ih]
    | response s b =>
      by_cases hs : s = 200 <;>
        simp [successBody, hs, ih, List.append_assoc]

lemma dailyP85_eq (speeds : List SpeedEntry) (sid : String) (day : Nat)
    (g : List ℚ)
    (hg : g = (speeds.filter (fun e =>
        e.countline_id = sid && e.fromT / 86400 = day)).filterMap
      (fun e => e.p85_speed))
    (hne : g ≠ []) :
    dailyP85 speeds sid day = some (g.sum / g.length) := by
  subst hg
  unfold dailyP85
  dsimp only
  split
  · simp_all
  · rfl

lemma with_speed_cons (q : Nat × String × String × Nat)
    (qs : List (Nat × String × String × Nat)) (region : String)
    (e : SpeedEntry) (es : List SpeedEntry) :
    fetch_region_traffic_with_speed (q :: qs) region (e :: es)
      = (fetch_region_traffic_rows (q :: qs) region).map
          (fun r => if r.mode = "car"
            then { r with
                   v85 := dailyP85 (e :: es) r.sensor_id (r.timestamp / 86400) }
            else r) := rfl

lemma splitUnderscore_ne_nil : ∀ l : List Char, splitUnderscore l ≠ [] := by
  intro l
  induction l with
  | nil => simp [splitUnderscore]
  | cons c rest ih =>
    rw [splitUnderscore]
    by_cases hc : c = '_'
    · simp [hc]
    · rw [if_neg hc]
      cases h : splitUnderscore rest with
      | nil => simp
      | cons w ws => simp

end Vivacitypy

namespace Vivacitypy

/-! ## Claim theorems -/

/-- Claim C1: for `from_date < to_date` and `max_days > 0`,
`batch_date_range` tiles `[from_date, to_date)` exactly: the first
sub-range starts at `from_date`, each sub-range's end equals the next
sub-range's start, each sub-range spans at most `max_days` (in seconds,
`max_days * 86400`), and the last sub-range's end is exactly `to_date`;
for `from_date = to_date` the result is the empty list. -/
theorem claim_C1 (from_date to_date max_days : Nat) (hmd : 0 < max_days) :
    (from_date < to_date →
      (batch_date_range from_date to_date max_days hmd).head?.map Prod.fst
          = some from_date
      ∧ List.Chain' (fun a b => a.2 = b.1)
          (batch_date_range from_date to_date max_days hmd)
      ∧ (∀ b ∈ batch_date_range from_date to_date max_days hmd,
          b.2 - b.1 ≤ max_days * 86400)
      ∧ (batch_date_range from_date to_date max_days hmd).getLast?.map
          Prod.snd = some to_date)
    ∧ (from_date = to_date →
        batch_date_range from_date to_date max_days hmd = []) := by
  constructor
  · intro hlt
    have h := batchGo_spec to_date (max_days * 86400)
      (Nat.mul_pos hmd (by norm_num)) to_date from_date (by omega) hlt
    obtain ⟨h1, h2, h3, h4⟩ := h
    exact ⟨by simpa using h1, h2, h3, h4⟩
  · intro he
    subst he
    exact batchGo_neg _ (lt_irrefl _)

/-- Witness for C1 at `from_date = 0`, `to_date = 10`, `max_days = 1`. -/
theorem claim_C1_witness :
    (0:Nat) < 1 ∧ (0:Nat) < 10 ∧
    ((batch_date_range 0 10 1 Nat.one_pos).head?.map Prod.fst = some 0
     ∧ List.Chain' (fun a b => a.2 = b.1)
         (batch_date_range 0 10 1 Nat.one_pos)
     ∧ (∀ b ∈ batch_date_range 0 10 1 Nat.one_pos,
         b.2 - b.1 ≤ 1 * 86400)
     ∧ (batch_date_range 0 10 1 Nat.one_pos).getLast?.map Prod.snd
         = some 10) :=
  ⟨Nat.one_pos, by decide, (claim_C1 0 10 1 Nat.one_pos).1 (by decide)⟩

/-- Claim C2: the identifier chunking of `get_counts` produces exactly
`ceil(N / 50)` groups, each of at most 50 identifiers, and concatenating
the groups in order reproduces the original list (chunk-then-unchunk is
the identity). -/
theorem claim_C2 (ids : List String) :
    (id_batches ids).length = (ids.length + 49) / 50
    ∧ (∀ g ∈ id_batches ids, g.length ≤ 50)
    ∧ (id_batches ids).flatten = ids := by
  refine ⟨by simp [id_batches], ?_, ?_⟩
  · intro g hg
    simp [id_batches] at hg
    obtain ⟨k, hk, hgk⟩ := hg
    rw [← hgk]
    simp [List.length_take]
  · rw [id_batches, chunks_flatten]
    apply List.take_of_length_le
    omega

/-- Claim C3: bidirectional aggregation of exactly two directional records
sharing the (countline, timestamp, from, to, class, mode) key with counts
3 and 5 yields exactly one record for that key with count 8, of a record
type that carries no direction field; aggregating no records yields the
empty list rather than an error. -/
theorem claim_C3 :
    aggregate_bidirectional
      [{ countline_id := "c1", timestamp := "t0", fromT := "t0", toT := "t1",
         direction := "clockwise", cls := "car", mode := "car", count := 3 },
       { countline_id := "c1", timestamp := "t0", fromT := "t0", toT := "t1",
         direction := "anti_clockwise", cls := "car", mode := "car",
         count := 5 }]
      = [{ countline_id := "c1", timestamp := "t0", fromT := "t0",
           toT := "t1", cls := "car", mode := "car", count := 8 }]
    ∧ aggregate_bidirectional [] = [] := by
  constructor
  · rfl
  · rfl

/-- Claim C4: in a per-direction payload, the reserved label `"total"` and
any label with a null count contribute no record; every other entry
contributes exactly one record whose unified mode is the lookup table's
translation when the label is a key of the table, and the vendor label
itself otherwise.  Stated for an arbitrary entry in an arbitrary payload
position and an arbitrary table. -/
theorem claim_C4 (classMap : String → Option String)
    (countline_id from_time to_time direction : String)
    (pre post : List (String × Option Nat)) (label : String)
    (c? : Option Nat) :
    processDirection classMap countline_id from_time to_time direction
        (pre ++ (label, c?) :: post)
      = processDirection classMap countline_id from_time to_time direction pre
        ++ (match c? with
            | none => []
            | some c =>
              if label = "total" then []
              else
                [{ countline_id := countline_id, timestamp := from_time,
                   fromT := from_time, toT := to_time,
                   direction := direction, cls := label,
                   mode := match classMap label with
                           | some m => m
                           | none => label,
                   count := c }])
        ++ processDirection classMap countline_id from_time to_time direction
            post := by
  by_cases hl : label = "total" <;> cases hc : c? <;>
    cases hm : classMap label <;>
      simp [processDirection, List.filterMap_append, List.filterMap_cons,
        hl, hm]

/-- Claim C5 evaluation: the code at the claimed inputs.  The claim (and
the function's own docstring, utils.py lines 70-71) expects camera_id
`"S40_woodhouseln"`; the `re.sub(r'[nsew]$', '', ...)` of line 116 also
strips the trailing `n` of the lowercased `Ln` (Lane) suffix, so the code
returns `"S40_woodhousel"` for both names.  The grouping invariant (both
names collapse to one camera_id) and the remaining components do hold. -/
theorem claim_C5_eval :
    extract_camera_id "S40_WoodhouseLn_road_wyca001"
      = (some "S40_woodhousel", some "S40", some "Woodhouse Lane",
         some "segment")
    ∧ extract_camera_id "S40_WoodhouseLn_pathLHS_wyca001"
      = (some "S40_woodhousel", some "S40", some "Woodhouse Lane",
         some "segment") := by
  constructor
  · decide
  · decide

/-- Claim C6 counterexample: the claim says road_name is
`"Vicar Lane"` at this input, but the code returns `"Vicarln"` (no
lowercase-to-uppercase transition inside `"Vicarln"`, so no space is
inserted and the `ln` never becomes a final word to expand). -/
theorem claim_C6_counterexample :
    ¬ (extract_camera_id "S40_Vicarln_crossing_south_lptip001").2.2.1
        = some "Vicar Lane" := by decide

/-- Claim C6 (amended): `extract_camera_id` on
`"S40_Vicarln_crossing_south_lptip001"` returns cordon `"S40"`,
counter_type `"crossing"` and road_name `"Vicarln"`; and for every input
whose full lowercase name contains `"_crossing"` the counter type is
`"crossing"`, regardless of any segment indicator also present
(precedence of the first branch). -/
theorem claim_C6_amended :
    extract_camera_id "S40_Vicarln_crossing_south_lptip001"
      = (some "S40_vicarl", some "S40", some "Vicarln", some "crossing")
    ∧ ∀ s : String,
        hasSubstring (s.toList.map Char.toLower) "_crossing".toList = true →
        (extract_camera_id s).2.2.2 = some "crossing" := by
  refine ⟨by decide, ?_⟩
  intro s hs
  have he : s ≠ "" := by
    intro h
    subst h
    exact absurd hs (by decide)
  have hct : counter_type_of s.toList = "crossing" := by
    unfold counter_type_of
    dsimp only
    rw [if_pos hs]
  unfold extract_camera_id
  rw [if_neg he]
  dsimp only
  split
  · simp
    exact hct
  · simp
    exact hct

/-- Witness for C6 at the name `"x_crossing"`. -/
theorem claim_C6_witness :
    hasSubstring (("x_crossing" : String).toList.map Char.toLower)
        "_crossing".toList = true
    ∧ (extract_camera_id "x_crossing").2.2.2 = some "crossing" :=
  ⟨by decide, claim_C6_amended.2 "x_crossing" (by decide)⟩

/-- Claim C7: the three road-name formatting examples, and: abbreviation
expansion touches only the last word — every word before the last is left
unchanged by the expansion step (and the word count is preserved), so a
mid-name abbreviation is never expanded. -/
theorem claim_C7 :
    format_road_name "HunsletRd" = "Hunslet Road"
    ∧ format_road_name "parkRow" = "Park Row"
    ∧ format_road_name "StCeciliaSt" = "St Cecilia Street"
    ∧ ∀ words : List (List Char),
        (expandLastAbbrev words).dropLast = words.dropLast
        ∧ (expandLastAbbrev words).length = words.length := by
  refine ⟨by decide, by decide, by decide, ?_⟩
  intro ws
  unfold expandLastAbbrev
  cases hl : ws.getLast? with
  | none => exact ⟨rfl, rfl⟩
  | some w =>
    dsimp only
    cases hr : List.lookup (List.map Char.toLower w) road_type_abbrevs with
    | none => exact ⟨rfl, rfl⟩
    | some rep =>
      dsimp only
      have hne : ws ≠ [] := by
        intro h
        subst h
        simp at hl
      have hlen : 0 < ws.length := List.length_pos.mpr hne
      constructor
      · exact List.dropLast_concat
      · simp [List.length_dropLast]
        omega

/-- Claim C8: the sub-batch collection loop shared by `get_counts` and
`get_speed` (generic in the per-body parser) returns exactly the
concatenation of the parses of the status-200 responses: an exception or a
non-200 status contributes no records and is skipped, processing continuing
with the remaining sub-batches, and an all-failed run returns the empty
list rather than an error. -/
theorem claim_C8 {α β : Type} (parse : α → List β)
    (results pre post : List (SubResponse α)) (s : Nat) (b : α) :
    runBatches parse results
      = ((results.filterMap successBody).map parse).flatten
    ∧ runBatches parse (pre ++ SubResponse.exn :: post)
      = runBatches parse (pre ++ post)
    ∧ (s = 200 ∨
       runBatches parse (pre ++ SubResponse.response s b :: post)
         = runBatches parse (pre ++ post))
    ∧ runBatches parse ([] : List (SubResponse α)) = [] := by
  refine ⟨by simpa using runBatches_foldl parse results [], ?_, ?_, rfl⟩
  · show List.foldl _ _ _ = List.foldl _ _ _
    rw [runBatches_foldl, runBatches_foldl]
    simp [successBody]
  · by_cases hs : s = 200
    · exact Or.inl hs
    · refine Or.inr ?_
      show List.foldl _ _ _ = List.foldl _ _ _
      rw [runBatches_foldl, runBatches_foldl]
      simp [successBody, hs]

/-- Claim C9: in the output of `fetch_region_traffic_with_speed`, a row
whose mode is not `"car"` always has a null v85, and a row whose mode is
`"car"` has v85 equal to the mean of the (non-null) 85th-percentile speeds
over all speed entries for that sensor and calendar day whenever such
entries exist. -/
theorem claim_C9 (recs : List (Nat × String × String × Nat)) (region : String)
    (speeds : List SpeedEntry) (r : TrafficRow)
    (hr : r ∈ fetch_region_traffic_with_speed recs region speeds) :
    (r.mode ≠ "car" → r.v85 = none)
    ∧ (r.mode = "car" → ∀ g : List ℚ,
        g = (speeds.filter (fun e =>
            e.countline_id = r.sensor_id
              && e.fromT / 86400 = r.timestamp / 86400)).filterMap
          (fun e => e.p85_speed) →
        g ≠ [] → r.v85 = some (g.sum / g.length)) := by
  rcases recs with _ | ⟨q, qs⟩
  · simp [fetch_region_traffic_with_speed, fetch_region_traffic_rows] at hr
  · rcases speeds with _ | ⟨e, es⟩
    · simp only [fetch_region_traffic_with_speed,
        fetch_region_traffic_rows] at hr
      simp only [List.map_cons] at hr
      rw [List.mem_cons] at hr
      constructor
      · intro _
        rcases hr with hr | hr
        · rw [hr]
        · simp only [List.mem_map] at hr
          obtain ⟨a, _, rfl⟩ := hr
          rfl
      · intro _ g hg hne
        simp at hg
        exact absurd hg hne
    · rw [with_speed_cons] at hr
      rw [List.mem_map] at hr
      obtain ⟨r0, hr0, rfl⟩ := hr
      have hv0 : r0.v85 = none := by
        simp only [fetch_region_traffic_rows, List.mem_map] at hr0
        obtain ⟨a, _, rfl⟩ := hr0
        rfl
      by_cases hm : r0.mode = "car"
      · constructor
        · intro hne
          simp [hm] at hne
        · intro _ g hg hne
          rw [if_pos hm] at hg ⊢
          exact dailyP85_eq _ _ _ g (by simpa using hg) hne
      · rw [if_neg hm]
        exact ⟨fun _ => hv0, fun hcar => absurd hcar hm⟩

end Vivacitypy

namespace Vivacitypy

/-- Witness for C9: one `"car"` row at timestamp 0 for sensor `"c1"`, two
speed entries on day 0 with 85th percentiles 10 and 20, joined mean 15. -/
theorem claim_C9_witness :
    ({ timestamp := 0, sensor_id := "c1", mode := "car", count := 5,
       v85 := some 15, region := "r", source := "vivacity" } : TrafficRow) ∈
      fetch_region_traffic_with_speed [(0, "c1", "car", 5)] "r"
        [{ countline_id := "c1", fromT := 100, mean_speed := none,
           p50_speed := none, p85_speed := some 10, sample_size := none },
         { countline_id := "c1", fromT := 200, mean_speed := none,
           p50_speed := none, p85_speed := some 20, sample_size := none }]
    ∧ (({ timestamp := 0, sensor_id := "c1", mode := "car", count := 5,
          v85 := some 15, region := "r", source := "vivacity" } :
            TrafficRow).mode ≠ "car" →
        ({ timestamp := 0, sensor_id := "c1", mode := "car", count := 5,
           v85 := some 15, region := "r", source := "vivacity" } :
             TrafficRow).v85 = none)
    ∧ (({ timestamp := 0, sensor_id := "c1", mode := "car", count := 5,
          v85 := some 15, region := "r", source := "vivacity" } :
            TrafficRow).mode = "car" →
        ∀ g : List ℚ,
          g = (([{ countline_id := "c1", fromT := 100, mean_speed := none,
                   p50_speed := none, p85_speed := some 10,
                   sample_size := none },
                 { countline_id := "c1", fromT := 200, mean_speed := none,
                   p50_speed := none, p85_speed := some 20,
                   sample_size := none }] : List SpeedEntry).filter
              (fun e => e.countline_id =
                  ({ timestamp := 0, sensor_id := "c1", mode := "car",
                     count := 5, v85 := some 15, region := "r",
                     source := "vivacity" } : TrafficRow).sensor_id
                && e.fromT / 86400 =
                  ({ timestamp := 0, sensor_id := "c1", mode := "car",
                     count := 5, v85 := some 15, region := "r",
                     source := "vivacity" } :
                       TrafficRow).timestamp / 86400)).filterMap
            (fun e => e.p85_speed) →
          g ≠ [] →
          ({ timestamp := 0, sensor_id := "c1", mode := "car", count := 5,
             v85 := some 15, region := "r", source := "vivacity" }
               : TrafficRow).v85 = some (g.sum / g.length)) := by
  have hmem :
      ({ timestamp := 0, sensor_id := "c1", mode := "car", count := 5,
          v85 := some 15, region := "r", source := "vivacity" }
            : TrafficRow) ∈
        fetch_region_traffic_with_speed [(0, "c1", "car", 5)] "r"
          [{ countline_id := "c1", fromT := 100, mean_speed := none,
              p50_speed := none, p85_speed := some 10, sample_size := none },
            { countline_id := "c1", fromT := 200, mean_speed := none,
              p50_speed := none, p85_speed := some 20,
              sample_size := none }] := by
    rw [with_speed_cons]
    simp [fetch_region_traffic_rows, dailyP85]
    norm_num
  exact ⟨hmem, claim_C9 [(0, "c1", "car", 5)] "r"
    [{ countline_id := "c1", fromT := 100, mean_speed := none,
       p50_speed := none, p85_speed := some 10, sample_size := none },
     { countline_id := "c1", fromT := 200, mean_speed := none,
       p50_speed := none, p85_speed := some 20, sample_size := none }]
    { timestamp := 0, sensor_id := "c1", mode := "car", count := 5,
      v85 := some 15, region := "r", source := "vivacity" }
    hmem⟩

/-- Claim C10: for every non-empty sensor name the returned road_name and
camera_id are non-null (the null-road_name branch is unreachable because
splitting on underscores always yields at least one, possibly empty,
segment), and the empty input returns the all-null tuple. -/
theorem claim_C10 :
    (∀ s : String, s ≠ "" →
      (extract_camera_id s).2.2.1 ≠ none ∧ (extract_camera_id s).1 ≠ none)
    ∧ (∀ l : List Char, splitUnderscore l ≠ [])
    ∧ extract_camera_id "" = (none, none, none, none) := by
  refine ⟨?_, splitUnderscore_ne_nil, by decide⟩
  intro s hs
  unfold extract_camera_id
  rw [if_neg hs]
  dsimp only
  split
  · rename_i heq
    exact absurd heq (splitUnderscore_ne_nil _)
  · simp

/-- Witness for C10 at the non-empty name `"S40_x_road_y"`. -/
theorem claim_C10_witness :
    ("S40_x_road_y" : String) ≠ ""
    ∧ ((extract_camera_id "S40_x_road_y").2.2.1 ≠ none
       ∧ (extract_camera_id "S40_x_road_y").1 ≠ none) :=
  ⟨by decide, claim_C10.1 "S40_x_road_y" (by decide)⟩

end Vivacitypy
